import Mathlib

/-!
Verification of the Telegram-Archive ingestion/consistency subsystem.

Shallow embedding of the storage adapter (`src/db/adapter.py`), the real-time
listener with its burst protector (`src/listener.py`), the backup engine's
media handling (`src/telegram_backup.py`) and the viewer endpoints
(`src/web/main.py`).  Each section names the source lines it is translated
from.  Timestamps are modelled as integers on a linear time line; machine
integers in the source are unbounded Python ints, so `Int`/`Nat` are exact.
-/

set_option autoImplicit false

namespace TelegramArchive

/- ### Burst protector (listener.py:34-194, `MassOperationProtector`)

Per-chat slice of the protector state.  The Python object keeps one deque of
operation timestamps per chat (`_operation_history[chat_id]`) and one optional
blocked entry per chat (`_blocked[chat_id]`); a missing history key behaves as
an empty deque.  The stats counters are global.  The human-readable `reason`
string stored alongside `blocked_until` is log-only text and is omitted;
`blocked` keeps `(blocked_until, blocked_count)`. -/
structure ProtectorState where
  threshold : Nat
  window : Int
  history : List Int
  blocked : Option (Int × Nat)
  operations_applied : Nat
  operations_blocked : Nat
  rate_limits_triggered : Nat
  deriving DecidableEq

/-- A chat that has never been seen: empty FIFO, not blocked, zero counters. -/
def initProtector (threshold : Nat) (window : Int) : ProtectorState :=
  ⟨threshold, window, [], none, 0, 0, 0⟩

/-- listener.py:97-107 `is_blocked`: a chat is rate-limited while
`now < blocked_until`; an expired block is deleted lazily. -/
def is_blocked (s : ProtectorState) (now : Int) : ProtectorState × Bool :=
  match s.blocked with
  | some (blocked_until, _) =>
      if now < blocked_until then (s, true)
      else ({ s with blocked := none }, false)
  | none => (s, false)

/-- listener.py:130-174 `check_operation`:
1. if already blocked, deny (listener.py:138-142);
2. `_record_operation` appends `now` to the FIFO (listener.py:124-128);
3. `_count_ops_in_window` pops entries older than `now - window` from the
   front and counts the rest (listener.py:109-122);
4. if the count exceeds the threshold, block until `now + window` with
   `blocked_count = count - threshold` and deny (listener.py:150-170);
5. otherwise allow (listener.py:172-174). -/
def check_operation (s : ProtectorState) (now : Int) : ProtectorState × Bool :=
  let ib := is_blocked s now
  if ib.2 then
    ({ ib.1 with operations_blocked := ib.1.operations_blocked + 1 }, false)
  else
    let s1 := ib.1
    let hist := (s1.history ++ [now]).dropWhile (fun t => t < now - s1.window)
    let ops := hist.length
    if s1.threshold < ops then
      ({ s1 with
          history := hist
          blocked := some (now + s1.window, ops - s1.threshold)
          rate_limits_triggered := s1.rate_limits_triggered + 1
          operations_blocked := s1.operations_blocked + 1 }, false)
    else
      ({ s1 with history := hist, operations_applied := s1.operations_applied + 1 }, true)

/-- A sequence of `check_operation` calls at the given times, returning the
final state and the list of allowed/denied results in call order. -/
def run_checks (s : ProtectorState) : List Int → ProtectorState × List Bool
  | [] => (s, [])
  | t :: ts =>
      let p := check_operation s t
      let q := run_checks p.1 ts
      (q.1, p.2 :: q.2)

lemma dropWhile_eq_self_of_forall {p : Int → Bool} :
    ∀ {l : List Int}, (∀ x ∈ l, p x = false) → l.dropWhile p = l := by
  intro l h
  cases l with
  | nil => rfl
  | cons a l =>
      simp [List.dropWhile, h a (by simp)]

/-- While a chat is blocked and every incoming call happens before
`blocked_until`, every call is denied and neither the FIFO nor the block
entry changes. -/
lemma run_checks_blocked (blocked_until : Int) (c : Nat) :
    ∀ (ts : List Int) (s : ProtectorState),
      s.blocked = some (blocked_until, c) →
      (∀ t ∈ ts, t < blocked_until) →
      (run_checks s ts).2 = List.replicate ts.length false ∧
      (run_checks s ts).1.history = s.history ∧
      (run_checks s ts).1.blocked = s.blocked := by
  intro ts
  induction ts with
  | nil => intro s _ _; simp [run_checks]
  | cons t ts ih =>
      intro s hb hlt
      have ht : t < blocked_until := hlt t (by simp)
      have hco :
          check_operation s t =
            ({ s with operations_blocked := s.operations_blocked + 1 }, false) := by
        simp [check_operation, is_blocked, hb, ht]
      have ih' := ih { s with operations_blocked := s.operations_blocked + 1 }
        (by simpa using hb) (fun x hx => hlt x (by simp [hx]))
      simp only [run_checks, hco]
      refine ⟨?_, ?_, ?_⟩
      · simpa [List.replicate_succ] using ih'.1
      · simpa using ih'.2.1
      · simpa [hb] using ih'.2.2

/-- Main protector invariant.  Starting unblocked with FIFO `hist`, with all
timestamps (past and incoming) inside one half-open window `[b, b + W)` and
at most `T` operations already recorded: with `free = T - |hist|` slots left,
the first `free` calls are allowed, the `free + 1`-st call (if any) trips the
rate limit and blocks until its own time plus the window, and everything
after it is denied without being recorded. -/
lemma run_checks_window (T : Nat) (W b : Int) :
    ∀ (ts hist : List Int) (oa ob rt : Nat),
      (∀ x ∈ hist, b ≤ x ∧ x < b + W) →
      (∀ x ∈ ts, b ≤ x ∧ x < b + W) →
      hist.length ≤ T →
      (run_checks ⟨T, W, hist, none, oa, ob, rt⟩ ts).2 =
          List.replicate (min ts.length (T - hist.length)) true ++
            List.replicate (ts.length - (T - hist.length)) false ∧
      (run_checks ⟨T, W, hist, none, oa, ob, rt⟩ ts).1.history =
          hist ++ ts.take (min (T - hist.length + 1) ts.length) ∧
      (run_checks ⟨T, W, hist, none, oa, ob, rt⟩ ts).1.blocked =
          (ts.get? (T - hist.length)).map (fun t => (t + W, 1)) := by
  intro ts
  induction ts with
  | nil =>
      intro hist oa ob rt _ _ _
      simp [run_checks]
  | cons t ts ih =>
      intro hist oa ob rt hhist hts hlen
      have htb : b ≤ t ∧ t < b + W := hts t (by simp)
      -- the append-then-prune step never pops anything inside the window
      have hkeep : ∀ x ∈ hist ++ [t], (decide (x < t - (W : Int))) = false := by
        intro x hx
        have hbx : b ≤ x := by
          rcases List.mem_append.1 hx with h | h
          · exact (hhist x h).1
          · simp at h; omega
        have : ¬ x < t - W := by omega
        simpa using this
      have hdrop : (hist ++ [t]).dropWhile (fun x => x < t - (W : Int)) = hist ++ [t] :=
        dropWhile_eq_self_of_forall hkeep
      by_cases hfull : hist.length = T
      · -- this call makes the count T + 1 and trips the rate limit
        have hco :
            check_operation ⟨T, W, hist, none, oa, ob, rt⟩ t =
              (⟨T, W, hist ++ [t], some (t + W, 1), oa, ob + 1, rt + 1⟩, false) := by
          simp only [check_operation, is_blocked]
          simp only [hdrop]
          have hops : (hist ++ [t]).length = T + 1 := by simp [hfull]
          simp [hops, hfull]
        have hblocked := run_checks_blocked (t + W) 1 ts
          ⟨T, W, hist ++ [t], some (t + W, 1), oa, ob + 1, rt + 1⟩ rfl
          (fun x hx => by
            have hbx := hts x (by simp [hx])
            omega)
        simp only [run_checks, hco]
        refine ⟨?_, ?_, ?_⟩
        · simpa [hfull, List.replicate_succ] using hblocked.1
        · simpa [hfull] using hblocked.2.1
        · simpa [hfull] using hblocked.2.2
      · -- still below the threshold: the call is allowed and recorded
        have hlt : hist.length < T := lt_of_le_of_ne hlen hfull
        have hco :
            check_operation ⟨T, W, hist, none, oa, ob, rt⟩ t =
              (⟨T, W, hist ++ [t], none, oa + 1, ob, rt⟩, true) := by
          simp only [check_operation, is_blocked]
          simp only [hdrop]
          have hops : (hist ++ [t]).length = hist.length + 1 := by simp
          have : ¬ T < hist.length + 1 := by omega
          simp [hops, this]
        have ih' := ih (hist ++ [t]) (oa + 1) ob rt
          (by
            intro x hx
            rcases List.mem_append.1 hx with h | h
            · exact hhist x h
            · simp at h; omega)
          (fun x hx => hts x (by simp [hx]))
          (by simp; omega)
        have hfree : T - hist.length = (T - (hist.length + 1)) + 1 := by omega
        simp only [run_checks, hco]
        refine ⟨?_, ?_, ?_⟩
        · rw [ih'.1]
          simp only [List.length_append, List.length_cons, List.length_singleton]
          rw [hfree]
          rw [Nat.succ_min_succ (ts.length) _]
          simp [List.replicate_succ, Nat.succ_sub_succ]
        · rw [ih'.2.1, hfree]
          simp only [List.length_append, List.length_cons, List.length_nil]
          have hmin : (T - (hist.length + 1) + 1 + 1) ⊓ (ts.length + 1)
              = ((T - (hist.length + 1) + 1) ⊓ ts.length) + 1 := by omega
          rw [hmin, List.take_succ_cons, List.append_assoc, List.singleton_append]
        · rw [ih'.2.2, hfree]
          simp only [List.length_append, List.length_cons, List.length_nil]
          rw [List.get?_cons_succ]

/-- C1: a chat starting unblocked with an empty history, hit by `N` calls all
inside one window of `W` seconds (all times in `[b, b + W)`), allows exactly
`min N T` calls and denies the remaining `N - T`; the `(T+1)`-st call sets
`blocked_until` to its own time plus the window, and the later calls are
denied without being recorded in the history (FIFO ends at `T + 1`
entries). -/
theorem burst_protector_exact_counting (T : Nat) (W b : Int) (ts : List Int)
    (hts : ∀ t ∈ ts, b ≤ t ∧ t < b + W) :
    (run_checks (initProtector T W) ts).2 =
        List.replicate (min ts.length T) true ++
          List.replicate (ts.length - T) false ∧
    (run_checks (initProtector T W) ts).1.history =
        ts.take (min (T + 1) ts.length) ∧
    (run_checks (initProtector T W) ts).1.blocked =
        (ts.get? T).map (fun t => (t + W, 1)) := by
  have h := run_checks_window T W b ts [] 0 0 0 (by simp) hts (by simp)
  simpa [initProtector] using h

/-- C1 witness: threshold 2, window 30, five calls at times 0..4: the first
two are allowed, the third trips the limit and blocks until 32, the last two
are denied unrecorded. -/
theorem burst_protector_exact_counting_witness :
    (∀ t ∈ [(0 : Int), 1, 2, 3, 4], (0 : Int) ≤ t ∧ t < 0 + 30) ∧
    ((run_checks (initProtector 2 30) [(0 : Int), 1, 2, 3, 4]).2 =
        List.replicate (min (List.length [(0 : Int), 1, 2, 3, 4]) 2) true ++
          List.replicate (List.length [(0 : Int), 1, 2, 3, 4] - 2) false ∧
      (run_checks (initProtector 2 30) [(0 : Int), 1, 2, 3, 4]).1.history =
        List.take (min (2 + 1) (List.length [(0 : Int), 1, 2, 3, 4])) [(0 : Int), 1, 2, 3, 4] ∧
      (run_checks (initProtector 2 30) [(0 : Int), 1, 2, 3, 4]).1.blocked =
        (List.get? [(0 : Int), 1, 2, 3, 4] 2).map (fun t => (t + 30, 1))) :=
  ⟨by decide, burst_protector_exact_counting 2 30 0 [0, 1, 2, 3, 4] (by decide)⟩

/- ### Datetimes and `_strip_tz` (adapter.py:29-35)

A Python `datetime` is modelled by its wall-clock reading (minutes on a
linear time line) plus an optional timezone offset in minutes (`tzinfo`);
`tzOffset = none` is a naive datetime.  `dt.replace(tzinfo=None)` keeps the
wall-clock reading and drops the offset.  Two aware datetimes denote the same
instant iff `wall - offset` agree. -/
structure PyDateTime where
  wall : Int
  tzOffset : Option Int
  deriving DecidableEq

/-- The instant (UTC minutes) an aware or naive datetime denotes; a naive
value is read at face value. -/
def instantOf (dt : PyDateTime) : Int :=
  dt.wall - dt.tzOffset.getD 0

/-- Modelled from the spec: "normalised to UTC naive before persistence" —
the naive datetime whose wall-clock reading is the UTC reading of the
instant.  This is what C7 asserts `_strip_tz` produces. -/
def utcNaiveOf (dt : PyDateTime) : PyDateTime :=
  ⟨instantOf dt, none⟩

/-- adapter.py:29-35 `_strip_tz`: `None` passes through; an aware value is
returned as `dt.replace(tzinfo=None)` — the wall-clock reading is kept
unchanged and only the offset is dropped; a naive value is returned as is. -/
def _strip_tz : Option PyDateTime → Option PyDateTime
  | none => none
  | some dt => if dt.tzOffset.isSome then some { dt with tzOffset := none } else some dt

/- ### Message writes (adapter.py:303-379)

`insert_message` / `insert_messages_batch` build one `values` dict per
message (adapter.py:306-321 and 346-362) and upsert it on the composite
primary key `(id, chat_id)` via `on_conflict_do_update(set_=values)`.
`raw_data` reaches the adapter as an arbitrary payload serialised by
`_serialize_raw_data` (adapter.py:96-130), a deterministic function of the
payload; we carry the serialised string. -/
structure MessageInput where
  id : Int
  chat_id : Int
  sender_id : Option Int := none
  date : PyDateTime
  text : Option String := none
  reply_to_msg_id : Option Int := none
  reply_to_text : Option String := none
  forward_from_id : Option Int := none
  edit_date : Option PyDateTime := none
  media_type : Option String := none
  media_id : Option String := none
  media_path : Option String := none
  raw_data : String := "\x7b\x7d"
  is_outgoing : Int := 0
  deriving DecidableEq

/-- The column values written for one message (adapter.py:346-362; identical
list at 306-321).  `date` is a NOT NULL column and always holds `some`;
`created_at` is set only by the column default on first insert and is never
listed in `set_`, so it is not part of the written values. -/
structure MessageValues where
  id : Int
  chat_id : Int
  sender_id : Option Int
  date : Option PyDateTime
  text : Option String
  reply_to_msg_id : Option Int
  reply_to_text : Option String
  forward_from_id : Option Int
  edit_date : Option PyDateTime
  media_type : Option String
  media_id : Option String
  media_path : Option String
  raw_data : String
  is_outgoing : Int
  deriving DecidableEq

def messageValues (m : MessageInput) : MessageValues :=
  { id := m.id
    chat_id := m.chat_id
    sender_id := m.sender_id
    date := _strip_tz (some m.date)
    text := m.text
    reply_to_msg_id := m.reply_to_msg_id
    reply_to_text := m.reply_to_text
    forward_from_id := m.forward_from_id
    edit_date := _strip_tz m.edit_date
    media_type := m.media_type
    media_id := m.media_id
    media_path := m.media_path
    raw_data := m.raw_data
    is_outgoing := m.is_outgoing }

/-- C7 (amended): `_strip_tz` keeps the wall-clock reading and only drops the
timezone, with no UTC conversion, and message writes persist exactly that
value for `date` and `edit_date`.  (The claim's UTC normalisation
`utcNaiveOf` is refuted by `strip_tz_not_utc_counterexample`.) -/
theorem strip_tz_keeps_wall_clock :
    (∀ dt : PyDateTime, _strip_tz (some dt) = some ⟨dt.wall, none⟩) ∧
    (∀ m : MessageInput, (messageValues m).date = some ⟨m.date.wall, none⟩) ∧
    (∀ m : MessageInput, ∀ dt : PyDateTime, m.edit_date = some dt →
      (messageValues m).edit_date = some ⟨dt.wall, none⟩) := by
  have hstrip : ∀ dt : PyDateTime, _strip_tz (some dt) = some ⟨dt.wall, none⟩ := by
    intro ⟨w, o⟩
    cases o <;> simp [_strip_tz]
  refine ⟨hstrip, fun m => ?_, fun m dt h => ?_⟩
  · simpa [messageValues] using hstrip m.date
  · simp only [messageValues]
    rw [h]
    exact hstrip dt

/-- C7 witness: a datetime read at wall clock 14:00 with offset +02:00
persists as naive 14:00 (wall kept, offset dropped). -/
theorem strip_tz_keeps_wall_clock_witness :
    _strip_tz (some ⟨14 * 60, some 120⟩) = some ⟨14 * 60, none⟩ ∧
    (messageValues { id := 1, chat_id := 2, date := ⟨14 * 60, some 120⟩ }).date =
      some ⟨14 * 60, none⟩ ∧
    (messageValues
        { id := 1, chat_id := 2, date := ⟨0, none⟩,
          edit_date := some ⟨14 * 60, some 120⟩ }).edit_date = some ⟨14 * 60, none⟩ :=
  ⟨(strip_tz_keeps_wall_clock.1 ⟨14 * 60, some 120⟩),
   (strip_tz_keeps_wall_clock.2.1 { id := 1, chat_id := 2, date := ⟨14 * 60, some 120⟩ }),
   (strip_tz_keeps_wall_clock.2.2
      { id := 1, chat_id := 2, date := ⟨0, none⟩,
        edit_date := some ⟨14 * 60, some 120⟩ } ⟨14 * 60, some 120⟩ rfl)⟩

/-- C7 counterexample: 12:00+00:00 and 14:00+02:00 denote the same instant,
but `_strip_tz` persists them as different naive values, and the persisted
value of the second is not its naive UTC representation — the timezone is
stripped without converting to UTC, contradicting the claim. -/
theorem strip_tz_not_utc_counterexample :
    instantOf ⟨12 * 60, some 0⟩ = instantOf ⟨14 * 60, some 120⟩ ∧
    _strip_tz (some ⟨14 * 60, some 120⟩) ≠ some (utcNaiveOf ⟨14 * 60, some 120⟩) ∧
    (messageValues { id := 1, chat_id := 2, date := ⟨12 * 60, some 0⟩ }).date ≠
      (messageValues { id := 1, chat_id := 2, date := ⟨14 * 60, some 120⟩ }).date := by
  decide

/- ### Batched message upsert (adapter.py:339-379)

The composite primary key `(id, chat_id)` makes the messages table a partial
map from key to the written column values; `on_conflict_do_update`
(adapter.py:364-375) overwrites every written column of an existing row and
inserts a fresh row otherwise. -/

def MsgTable := Int × Int → Option MessageValues

/-- One upsert (adapter.py:364-377): the row at `(m.id, m.chat_id)` now holds
exactly the written values; every other key is untouched. -/
def upsert_message (db : MsgTable) (m : MessageInput) : MsgTable :=
  fun k => if k = (m.id, m.chat_id) then some (messageValues m) else db k

/-- adapter.py:339-379 `insert_messages_batch`: the upserts of a batch are
executed in order within one transaction. -/
def insert_messages_batch (db : MsgTable) (batch : List MessageInput) : MsgTable :=
  batch.foldl upsert_message db

/-- The state after a batch, per key: the last batch entry writing the key
wins; keys the batch never writes keep their prior row. -/
lemma insert_messages_batch_get (batch : List MessageInput) :
    ∀ (db : MsgTable) (k : Int × Int),
      insert_messages_batch db batch k =
        match batch.reverse.find? (fun m => decide (k = (m.id, m.chat_id))) with
        | some m => some (messageValues m)
        | none => db k := by
  induction batch with
  | nil => intro db k; simp [insert_messages_batch]
  | cons m batch ih =>
      intro db k
      have hstep : insert_messages_batch db (m :: batch) =
          insert_messages_batch (upsert_message db m) batch := rfl
      rw [hstep, ih]
      rw [List.reverse_cons, List.find?_append]
      cases hfind : batch.reverse.find? (fun m => decide (k = (m.id, m.chat_id))) with
      | some m' => simp [hfind]
      | none =>
          simp only [hfind, Option.none_orElse]
          by_cases hk : k = (m.id, m.chat_id)
          · simp [List.find?, hk, upsert_message]
          · simp [List.find?, hk, upsert_message]

/-- C5: re-running a batch leaves the messages table unchanged
(idempotence), and a single upsert of a record whose `(id, chat_id)` key
already exists overwrites the prior row with the new written values instead
of failing or duplicating. -/
theorem insert_messages_batch_idempotent :
    (∀ (db : MsgTable) (batch : List MessageInput),
      insert_messages_batch (insert_messages_batch db batch) batch =
        insert_messages_batch db batch) ∧
    (∀ (db : MsgTable) (m : MessageInput),
      upsert_message db m (m.id, m.chat_id) = some (messageValues m)) := by
  constructor
  · intro db batch
    funext k
    rw [insert_messages_batch_get, insert_messages_batch_get]
    cases hfind : batch.reverse.find? (fun m => decide (k = (m.id, m.chat_id))) with
    | some m => simp
    | none => simp
  · intro db m
    simp [upsert_message]

/- ### Reactions (adapter.py:626-667, models.py:114-137)

A reaction row as persisted (the autoincrement surrogate `id` and
`created_at` default are not part of the written values). -/
structure ReactionRow where
  message_id : Int
  chat_id : Int
  emoji : String
  user_id : Option Int
  count : Int
  deriving DecidableEq

/-- One element of the `reactions` list passed to `insert_reactions`:
`emoji` is required, `user_id` defaults to `None` and `count` to `1` via
`reaction.get(...)` (adapter.py:643-650). -/
structure ReactionInput where
  emoji : String
  user_id : Option Int := none
  count : Option Int := none
  deriving DecidableEq

def reactionRowOf (message_id chat_id : Int) (r : ReactionInput) : ReactionRow :=
  ⟨message_id, chat_id, r.emoji, r.user_id, r.count.getD 1⟩

/-- The `uq_reaction` UNIQUE(message_id, chat_id, emoji, user_id) constraint
(models.py:134-135, created on both dialects): two rows inserted for one
message collide iff they share the emoji and a non-null `user_id`.  SQL
treats NULLs as distinct in unique constraints on both dialects, so
anonymous (`user_id IS NULL`) rows never collide. -/
def uq_conflict (a b : ReactionInput) : Bool :=
  a.emoji == b.emoji && a.user_id.isSome && a.user_id == b.user_id

/-- Whether inserting `reactions` for one message violates `uq_reaction`:
some two of the supplied rows collide.  The rows previously stored for the
message are deleted earlier in the same transaction and every inserted row
carries the same `(message_id, chat_id)`, so only collisions inside the
supplied list can trip the constraint. -/
def has_uq_violation : List ReactionInput → Bool
  | [] => false
  | r :: rest => rest.any (fun x => uq_conflict r x) || has_uq_violation rest

/-- adapter.py:628-653 `insert_reactions`: an empty list returns immediately
without touching the table (adapter.py:631-632); otherwise, in one
transaction, every row with the message's `(message_id, chat_id)` is deleted
(adapter.py:635-640) and the supplied rows are inserted (adapter.py:642-651).
A supplied list that violates `uq_reaction` makes the commit raise
IntegrityError — re-raised by `retry_on_locked` (adapter.py:50-56, which
retries only locked/connection errors) — and the transaction rolls back:
`.error ()` with the table left at `db`. -/
def insert_reactions (db : List ReactionRow) (message_id chat_id : Int)
    (reactions : List ReactionInput) : Except Unit (List ReactionRow) :=
  if reactions.isEmpty then .ok db
  else if has_uq_violation reactions then .error ()
  else
    .ok (db.filter (fun r => !(r.message_id == message_id && r.chat_id == chat_id)) ++
      reactions.map (reactionRowOf message_id chat_id))

/-- C2 counterexample: with one stored reaction for message `(1, 2)` and the
supplied list `R = []`, the call succeeds but leaves the old row in place, so
the stored set for `(1, 2)` is not the supplied (empty) set — the claim fails
for the empty list. -/
theorem insert_reactions_empty_list_counterexample :
    insert_reactions [⟨1, 2, "+1", none, 1⟩] 1 2 [] = .ok [⟨1, 2, "+1", none, 1⟩] ∧
    ¬ ((insert_reactions [⟨1, 2, "+1", none, 1⟩] 1 2 []).map
        (List.filter (fun r => r.message_id == 1 && r.chat_id == 2)) = .ok []) := by
  constructor
  · rfl
  · intro h
    rw [show insert_reactions [⟨1, 2, "+1", none, 1⟩] 1 2 [] =
        .ok [⟨1, 2, "+1", none, 1⟩] from rfl] at h
    simp only [Except.map, Except.ok.injEq] at h
    exact absurd h (by decide)

/-- C2 (amended): for every non-empty `R` with no two rows sharing the emoji
and a non-null `user_id` (the `uq_reaction` unique key), the call succeeds,
the rows stored for `(message_id, chat_id)` are exactly the supplied ones and
the rows of every other message are unchanged.  For the empty list the call
is a no-op and prior reactions survive (see the counterexample); for a
colliding `R` the commit raises IntegrityError and the rollback keeps the
prior rows. -/
theorem insert_reactions_round_trip (db : List ReactionRow)
    (message_id chat_id : Int) (reactions : List ReactionInput)
    (hne : reactions ≠ [])
    (huq : has_uq_violation reactions = false) :
    (insert_reactions db message_id chat_id reactions).map
        (List.filter (fun r => r.message_id == message_id && r.chat_id == chat_id)) =
      .ok (reactions.map (reactionRowOf message_id chat_id)) ∧
    (insert_reactions db message_id chat_id reactions).map
        (List.filter (fun r => !(r.message_id == message_id && r.chat_id == chat_id))) =
      .ok (List.filter (fun r => !(r.message_id == message_id && r.chat_id == chat_id)) db) := by
  have hkey : ∀ r : ReactionInput,
      ((reactionRowOf message_id chat_id r).message_id == message_id &&
        (reactionRowOf message_id chat_id r).chat_id == chat_id) = true := by
    intro r; simp [reactionRowOf]
  have hne' : reactions.isEmpty = false := by
    cases reactions with
    | nil => exact absurd rfl hne
    | cons a l => rfl
  have hred : insert_reactions db message_id chat_id reactions =
      .ok (db.filter (fun r => !(r.message_id == message_id && r.chat_id == chat_id)) ++
        reactions.map (reactionRowOf message_id chat_id)) := by
    unfold insert_reactions
    rw [hne', huq]
    simp
  rw [hred]
  simp only [Except.map, List.filter_append, Except.ok.injEq]
  constructor
  · rw [List.filter_filter]
    have h1 : List.filter
        (fun r => (r.message_id == message_id && r.chat_id == chat_id) &&
          !(r.message_id == message_id && r.chat_id == chat_id)) db = [] := by
      apply List.filter_eq_nil_iff.2
      intro r _
      cases r.message_id == message_id && r.chat_id == chat_id <;> simp
    rw [h1, List.filter_map]
    have h2 : (fun r => (reactionRowOf message_id chat_id r).message_id == message_id &&
        (reactionRowOf message_id chat_id r).chat_id == chat_id) = fun _ => true := by
      funext r; exact hkey r
    simp only [Function.comp_def, h2, List.filter_true, List.nil_append]
  · rw [List.filter_filter]
    have h3 : List.filter
        (fun r => !((reactionRowOf message_id chat_id r).message_id == message_id &&
          (reactionRowOf message_id chat_id r).chat_id == chat_id)) reactions = [] := by
      apply List.filter_eq_nil_iff.2
      intro r _
      simp [reactionRowOf]
    rw [List.filter_map]
    simp only [Function.comp_def]
    rw [show (List.filter (fun r => !((reactionRowOf message_id chat_id r).message_id == message_id &&
          (reactionRowOf message_id chat_id r).chat_id == chat_id)) reactions) = [] from h3]
    simp only [List.map_nil, List.append_nil]
    congr 1
    funext r
    cases r.message_id == message_id && r.chat_id == chat_id <;> simp

/-- C2 witness: replacing the stored `+1` reaction of message `(1, 2)` with
`R = [eyes (2 anonymous), heart by user 9]` — non-empty, distinct unique keys
— succeeds, leaves exactly `R` stored for `(1, 2)` and does not touch the
reaction of message `(3, 2)`. -/
theorem insert_reactions_round_trip_witness :
    ([⟨"eyes", none, some 2⟩, ⟨"heart", some 9, none⟩] : List ReactionInput) ≠ [] ∧
    has_uq_violation [⟨"eyes", none, some 2⟩, ⟨"heart", some 9, none⟩] = false ∧
    ((insert_reactions [⟨1, 2, "+1", none, 1⟩, ⟨3, 2, "+1", none, 1⟩] 1 2
          [⟨"eyes", none, some 2⟩, ⟨"heart", some 9, none⟩]).map
        (List.filter (fun r => r.message_id == 1 && r.chat_id == 2)) =
      .ok (List.map (reactionRowOf 1 2) [⟨"eyes", none, some 2⟩, ⟨"heart", some 9, none⟩]) ∧
    (insert_reactions [⟨1, 2, "+1", none, 1⟩, ⟨3, 2, "+1", none, 1⟩] 1 2
          [⟨"eyes", none, some 2⟩, ⟨"heart", some 9, none⟩]).map
        (List.filter (fun r => !(r.message_id == 1 && r.chat_id == 2))) =
      .ok (List.filter (fun r => !(r.message_id == 1 && r.chat_id == 2))
        [⟨1, 2, "+1", none, 1⟩, ⟨3, 2, "+1", none, 1⟩])) :=
  ⟨by decide, by decide,
   insert_reactions_round_trip [⟨1, 2, "+1", none, 1⟩, ⟨3, 2, "+1", none, 1⟩] 1 2
     [⟨"eyes", none, some 2⟩, ⟨"heart", some 9, none⟩] (by decide) (by decide)⟩

/- ### Sync status (adapter.py:669-713, models.py:140-150) -/
structure SyncStatusRow where
  chat_id : Int
  last_message_id : Int
  last_sync_date : Int
  message_count : Int
  deriving DecidableEq

/-- adapter.py:679-713 `update_sync_status`: an atomic upsert on `chat_id`.
On conflict the row's `last_message_id` and `last_sync_date` are overwritten
with the supplied values and `message_count` is incremented by the supplied
count (`SyncStatus.message_count + excluded.message_count`,
adapter.py:693-710); otherwise the fresh row is inserted as given.  `now`
stands for `datetime.utcnow()` (adapter.py:683). -/
def update_sync_status (db : List SyncStatusRow) (chat_id last_message_id : Int)
    (message_count : Int) (now : Int) : List SyncStatusRow :=
  if db.any (fun r => r.chat_id == chat_id) then
    db.map (fun r =>
      if r.chat_id == chat_id then
        { r with
            last_message_id := last_message_id
            last_sync_date := now
            message_count := r.message_count + message_count }
      else r)
  else db ++ [⟨chat_id, last_message_id, now, message_count⟩]

/-- A sequence of `update_sync_status` calls for one chat; each call supplies
`(last_message_id, message_count, now)`. -/
def run_sync_updates (db : List SyncStatusRow) (chat_id : Int) :
    List (Int × Int × Int) → List SyncStatusRow
  | [] => db
  | (x, d, now) :: rest =>
      run_sync_updates (update_sync_status db chat_id x d now) chat_id rest

lemma find?_update_aux (chat_id x d now : Int) :
    ∀ (db : List SyncStatusRow) (r : SyncStatusRow),
      db.find? (fun r => r.chat_id == chat_id) = some r →
      (db.map (fun r =>
        if r.chat_id == chat_id then
          { r with last_message_id := x, last_sync_date := now,
                   message_count := r.message_count + d }
        else r)).find? (fun r => r.chat_id == chat_id) =
        some { r with last_message_id := x, last_sync_date := now,
                      message_count := r.message_count + d } := by
  intro db
  induction db with
  | nil => intro r h; simp [List.find?] at h
  | cons a db ih =>
      intro r h
      rw [List.find?_cons] at h
      by_cases ha : (a.chat_id == chat_id) = true
      · have ha2 : a.chat_id = chat_id := by simpa using ha
        simp only [ha] at h
        injection h with h
        subst h
        simp [List.find?_cons, ha, ha2]
      · have ha' : (a.chat_id == chat_id) = false := by simpa using ha
        have ha2 : ¬ a.chat_id = chat_id := by simpa using ha
        simp only [ha'] at h
        simp only [List.map_cons, ha', ha2, Bool.false_eq_true, if_false, if_neg]
        rw [List.find?_cons]
        simp only [ha']
        exact ih r h

lemma find?_update_sync_status (db : List SyncStatusRow) (chat_id x d now : Int)
    (r : SyncStatusRow) (hfind : db.find? (fun r => r.chat_id == chat_id) = some r) :
    (update_sync_status db chat_id x d now).find? (fun r => r.chat_id == chat_id) =
      some { r with last_message_id := x, last_sync_date := now,
                    message_count := r.message_count + d } := by
  have hp := List.find?_some hfind
  have hany : db.any (fun r => r.chat_id == chat_id) = true :=
    List.any_eq_true.2 ⟨r, List.mem_of_find?_eq_some hfind, hp⟩
  simp only [update_sync_status, hany, if_true]
  exact find?_update_aux chat_id x d now db r hfind

lemma run_sync_updates_existing (chat_id : Int) :
    ∀ (calls : List (Int × Int × Int)) (db : List SyncStatusRow) (r : SyncStatusRow),
      db.find? (fun r => r.chat_id == chat_id) = some r →
      (run_sync_updates db chat_id calls).find? (fun r => r.chat_id == chat_id) =
        some (calls.foldl
          (fun acc c =>
            { acc with last_message_id := c.1, last_sync_date := c.2.2,
                       message_count := acc.message_count + c.2.1 }) r) := by
  intro calls
  induction calls with
  | nil => intro db r h; simpa [run_sync_updates] using h
  | cons c rest ih =>
      intro db r h
      obtain ⟨x, d, now⟩ := c
      exact ih (update_sync_status db chat_id x d now) _
        (find?_update_sync_status db chat_id x d now r h)

lemma foldl_sync_fields :
    ∀ (calls : List (Int × Int × Int)) (r : SyncStatusRow) (x d now : Int),
      calls.getLast? = some (x, d, now) →
      (calls.foldl
        (fun acc c =>
          { acc with last_message_id := c.1, last_sync_date := c.2.2,
                     message_count := acc.message_count + c.2.1 }) r) =
        { r with last_message_id := x, last_sync_date := now,
                 message_count := r.message_count + (calls.map (fun c => c.2.1)).sum }
  | [], r, x, d, now, h => by simp at h
  | [c], r, x, d, now, h => by
      obtain ⟨x1, d1, now1⟩ := c
      have hc : ((x1, d1, now1) : Int × Int × Int) = (x, d, now) := by
        simpa using h
      obtain ⟨h1, h2, h3⟩ : x1 = x ∧ d1 = d ∧ now1 = now := by
        simpa [Prod.ext_iff] using hc
      subst h1; subst h2; subst h3
      simp
  | c :: c2 :: rest, r, x, d, now, h => by
      have hlast : (c2 :: rest).getLast? = some (x, d, now) := by
        simpa [List.getLast?_cons_cons] using h
      rw [List.foldl_cons,
         foldl_sync_fields (c2 :: rest) _ x d now hlast]
      simp [List.map_cons, List.sum_cons, add_assoc]

/-- C4: starting with no sync-status row for the chat, a sequence of
`update_sync_status(chat_id, x_i, d_i)` calls leaves one row whose
`message_count` is `d_1 + ... + d_N` and whose `last_message_id` is the last
supplied `x_N` (and `last_sync_date` is the last call's clock reading). -/
theorem update_sync_status_accumulates (db : List SyncStatusRow) (chat_id : Int)
    (calls : List (Int × Int × Int)) (x d now : Int)
    (hfresh : ∀ r ∈ db, (r.chat_id == chat_id) = false)
    (hlast : calls.getLast? = some (x, d, now)) :
    (run_sync_updates db chat_id calls).find? (fun r => r.chat_id == chat_id) =
      some ⟨chat_id, x, now, (calls.map (fun c => c.2.1)).sum⟩ := by
  cases calls with
  | nil => simp at hlast
  | cons c rest =>
      obtain ⟨x1, d1, now1⟩ := c
      have hany : db.any (fun r => r.chat_id == chat_id) = false := by
        rw [List.any_eq_false]
        intro r hr
        simp [hfresh r hr]
      have hstep : update_sync_status db chat_id x1 d1 now1 =
          db ++ [⟨chat_id, x1, now1, d1⟩] := by
        simp [update_sync_status, hany]
      have hfind : (db ++ [(⟨chat_id, x1, now1, d1⟩ : SyncStatusRow)]).find?
          (fun r => r.chat_id == chat_id) = some ⟨chat_id, x1, now1, d1⟩ := by
        rw [List.find?_append]
        have hnone : db.find? (fun r => r.chat_id == chat_id) = none :=
          List.find?_eq_none.2 (fun r hr => by simp [hfresh r hr])
        simp [hnone, List.find?]
      have hrun : run_sync_updates db chat_id ((x1, d1, now1) :: rest) =
          run_sync_updates (db ++ [⟨chat_id, x1, now1, d1⟩]) chat_id rest := by
        simp [run_sync_updates, hstep]
      rw [hrun]
      cases rest with
      | nil =>
          have hc : ((x1, d1, now1) : Int × Int × Int) = (x, d, now) := by
            simpa using hlast
          obtain ⟨h1, h2, h3⟩ : x1 = x ∧ d1 = d ∧ now1 = now := by
            simpa [Prod.ext_iff] using hc
          subst h1; subst h2; subst h3
          simpa [run_sync_updates] using hfind
      | cons c2 rest2 =>
          have hlast' : (c2 :: rest2).getLast? = some (x, d, now) := by
            simpa [List.getLast?_cons_cons] using hlast
          rw [run_sync_updates_existing chat_id (c2 :: rest2) _ _ hfind,
             foldl_sync_fields (c2 :: rest2) _ x d now hlast']
          simp [List.map_cons, List.sum_cons, add_assoc]

/-- C4 witness: two calls `(x=10, d=2)` then `(x=12, d=3)` on a fresh chat 5
leave the row `(5, 12, 5)` with `message_count = 2 + 3`. -/
theorem update_sync_status_accumulates_witness :
    (∀ r ∈ ([] : List SyncStatusRow), (r.chat_id == (5 : Int)) = false) ∧
    ([((10 : Int), (2 : Int), (100 : Int)), (12, 3, 200)].getLast? = some (12, 3, 200)) ∧
    (run_sync_updates [] 5 [(10, 2, 100), (12, 3, 200)]).find?
        (fun r => r.chat_id == 5) =
      some ⟨5, 12, 200, (List.map (fun c => c.2.1) [((10 : Int), (2 : Int), (100 : Int)), (12, 3, 200)]).sum⟩ :=
  ⟨by decide, by decide,
   update_sync_status_accumulates [] 5 [(10, 2, 100), (12, 3, 200)] 12 3 200
     (by decide) (by decide)⟩

/- ### Whole-store state (models.py:22-158)

Row types for the remaining tables.  As before, surrogate defaults
(`created_at`, `updated_at`) that the adapter never writes explicitly on the
operations under study are omitted from the row values. -/
structure ChatRow where
  id : Int
  type : String
  title : Option String := none
  username : Option String := none
  first_name : Option String := none
  last_name : Option String := none
  phone : Option String := none
  description : Option String := none
  participants_count : Option Int := none
  last_synced_message_id : Int := 0
  deriving DecidableEq

/-- models.py:90-111 `Media`: primary key is the string media id. -/
structure MediaRow where
  id : String
  message_id : Option Int
  chat_id : Option Int
  type : Option String
  file_path : Option String
  file_name : Option String
  file_size : Option Int
  mime_type : Option String
  width : Option Int
  height : Option Int
  duration : Option Int
  downloaded : Int
  download_date : Option Int
  deriving DecidableEq

/-- The logical store: one list of rows per table (a relational table is a
multiset of rows; list order is immaterial to the SQL semantics and kept
only to make the model executable). -/
structure Database where
  chats : List ChatRow
  messages : List MessageValues
  media : List MediaRow
  reactions : List ReactionRow
  sync_status : List SyncStatusRow
  deriving DecidableEq

/-- adapter.py:427-449 `delete_message`: in one transaction (single commit at
adapter.py:448) delete the media rows, the reaction rows and the message row
keyed by `(message_id, chat_id)`.  SQL `col = value` is never true on a NULL
`col`, hence the `some`-comparisons on the nullable media columns. -/
def delete_message (db : Database) (chat_id message_id : Int) : Database :=
  { db with
      media := db.media.filter
        (fun r => !(r.chat_id == some chat_id && r.message_id == some message_id))
      reactions := db.reactions.filter
        (fun r => !(r.chat_id == chat_id && r.message_id == message_id))
      messages := db.messages.filter
        (fun m => !(m.chat_id == chat_id && m.id == message_id)) }

/-- C10: `delete_message(chat_id, message_id)` removes, in one transaction,
exactly the message row and the media and reaction rows keyed by
`(message_id, chat_id)` — a row survives iff it was there before and is not
so keyed — and leaves the chats and sync-status tables untouched. -/
theorem delete_message_cascade_and_frame (db : Database) (chat_id message_id : Int) :
    (∀ m : MessageValues, m ∈ (delete_message db chat_id message_id).messages ↔
      m ∈ db.messages ∧ ¬(m.chat_id = chat_id ∧ m.id = message_id)) ∧
    (∀ r : MediaRow, r ∈ (delete_message db chat_id message_id).media ↔
      r ∈ db.media ∧ ¬(r.chat_id = some chat_id ∧ r.message_id = some message_id)) ∧
    (∀ r : ReactionRow, r ∈ (delete_message db chat_id message_id).reactions ↔
      r ∈ db.reactions ∧ ¬(r.chat_id = chat_id ∧ r.message_id = message_id)) ∧
    (delete_message db chat_id message_id).chats = db.chats ∧
    (delete_message db chat_id message_id).sync_status = db.sync_status := by
  refine ⟨fun m => ?_, fun r => ?_, fun r => ?_, rfl, rfl⟩
  · simp [delete_message, List.mem_filter]
    tauto
  · simp [delete_message, List.mem_filter]
    tauto
  · simp [delete_message, List.mem_filter]
    tauto

/-- C10 witness: deleting message 99 of chat 7 from a two-message store
removes that message, its media row and its reaction row, and keeps the rows
of message 100 and of chat 8, the chat rows and the sync-status row. -/
theorem delete_message_cascade_and_frame_witness :
    ((⟨99, 7, none, some ⟨0, none⟩, some "bye", none, none, none, none, none, none,
        none, "\x7b\x7d", 0⟩ : MessageValues) ∈
      (delete_message
        ⟨[{ id := 7, type := "group" }, { id := 8, type := "private" }],
         [⟨99, 7, none, some ⟨0, none⟩, some "bye", none, none, none, none, none,
            none, none, "\x7b\x7d", 0⟩,
          ⟨100, 7, none, some ⟨1, none⟩, some "hi", none, none, none, none, none,
            none, none, "\x7b\x7d", 0⟩],
         [⟨"7_99_photo", some 99, some 7, some "photo", none, none, none, none,
            none, none, none, 1, none⟩],
         [⟨99, 7, "+1", none, 1⟩],
         [⟨7, 100, 0, 2⟩]⟩ 7 99).messages ↔
      (⟨99, 7, none, some ⟨0, none⟩, some "bye", none, none, none, none, none, none,
        none, "\x7b\x7d", 0⟩ : MessageValues) ∈
        ([⟨99, 7, none, some ⟨0, none⟩, some "bye", none, none, none, none, none,
            none, none, "\x7b\x7d", 0⟩,
          ⟨100, 7, none, some ⟨1, none⟩, some "hi", none, none, none, none, none,
            none, none, "\x7b\x7d", 0⟩] : List MessageValues) ∧
        ¬((7 : Int) = 7 ∧ (99 : Int) = 99)) :=
  (delete_message_cascade_and_frame
    ⟨[{ id := 7, type := "group" }, { id := 8, type := "private" }],
     [⟨99, 7, none, some ⟨0, none⟩, some "bye", none, none, none, none, none,
        none, none, "\x7b\x7d", 0⟩,
      ⟨100, 7, none, some ⟨1, none⟩, some "hi", none, none, none, none, none,
        none, none, "\x7b\x7d", 0⟩],
     [⟨"7_99_photo", some 99, some 7, some "photo", none, none, none, none,
        none, none, none, 1, none⟩],
     [⟨99, 7, "+1", none, 1⟩],
     [⟨7, 100, 0, 2⟩]⟩ 7 99).1
    ⟨99, 7, none, some ⟨0, none⟩, some "bye", none, none, none, none, none, none,
      none, "\x7b\x7d", 0⟩

/- ### Listener delete handler (listener.py:618-682) -/

/-- The methods defined on `DatabaseAdapter` (adapter.py:79-1050, every `def`
in the class body).  Python resolves `self.db.<name>` against this set; a
missing name raises `AttributeError`. -/
def adapterMethods : List String :=
  ["__init__", "_serialize_raw_data", "set_metadata", "get_metadata",
   "upsert_chat", "get_all_chats", "upsert_user", "insert_message",
   "insert_messages_batch", "get_messages_by_date_range",
   "find_message_by_date", "get_messages_sync_data", "delete_message",
   "delete_message_by_id_any_chat", "update_message_text",
   "backfill_is_outgoing", "_message_to_dict", "insert_media",
   "get_media_for_verification", "mark_media_for_redownload",
   "insert_reactions", "get_reactions", "get_last_message_id",
   "update_sync_status", "get_statistics", "delete_chat_and_related_data",
   "get_messages_paginated", "find_message_by_date_with_joins",
   "get_chat_by_id", "get_messages_for_export", "close"]

def adapter_has_method (name : String) : Bool :=
  adapterMethods.contains name

/-- listener.py:646-654: when the deletion event carries no chat id, the
handler tries `await self.db.get_chat_id_for_message(msg_id)` inside a
`try`/`except Exception` that only logs.  `DatabaseAdapter` defines no method
of that name (see `adapterMethods`), so the attribute access raises
`AttributeError`, the `except` swallows it and the id stays unresolved.  The
`then` branch models what the spec-intended lookup would return (the owning
chat of the message, from the messages table); it is unreachable. -/
def resolve_chat_id_from_db (db : Database) (msg_id : Int) : Option Int :=
  if adapter_has_method "get_chat_id_for_message" then
    (db.messages.find? (fun m => m.id == msg_id)).map (fun m => m.chat_id)
  else none

/-- Listener flags and include lists consulted by the delete handler
(config.py / listener.py:411-435). -/
structure ListenerEnv where
  listen_deletions : Bool
  global_include_ids : List Int
  private_include_ids : List Int
  groups_include_ids : List Int
  channels_include_ids : List Int

/-- Listener-side state touched by `on_message_deleted`: the store, the
per-chat protector slices, the tracked-chat set, the stats counters and the
`delete` events published to the viewer (listener.py:254-267, 643-676). -/
structure ListenerState where
  db : Database
  protector : Int → ProtectorState
  tracked : List Int
  deletions_received : Nat
  deletions_applied : Nat
  deletions_skipped : Nat
  operations_discarded : Nat
  published : List (Int × Int)

/-- listener.py:411-435 `_should_process_chat`: tracked chats or any explicit
include list. -/
def _should_process_chat (env : ListenerEnv) (s : ListenerState) (chat_id : Int) : Bool :=
  s.tracked.contains chat_id ||
    env.global_include_ids.contains chat_id ||
    env.private_include_ids.contains chat_id ||
    env.groups_include_ids.contains chat_id ||
    env.channels_include_ids.contains chat_id

/-- A message-deletion event: `chat_id` may be absent
(listener.py:634-635). -/
structure DeletedEvent where
  chat_id : Option Int
  deleted_ids : List Int

/-- listener.py:643-678, the per-id body of the deletion loop: count the
deletion, determine the effective chat (event chat, else the database
fallback), drop ids whose chat stays unknown or is not admitted, consult the
burst protector, and on allowance delete the message and publish a `delete`
event. -/
def process_deleted_id (env : ListenerEnv) (now : Int) (event_chat : Option Int)
    (s : ListenerState) (msg_id : Int) : ListenerState :=
  let s := { s with deletions_received := s.deletions_received + 1 }
  let effective_chat_id :=
    match event_chat with
    | some c => some c
    | none => resolve_chat_id_from_db s.db msg_id
  match effective_chat_id with
  | none => s
  | some chat_id =>
      if ¬ _should_process_chat env s chat_id then s
      else
        let check := check_operation (s.protector chat_id) now
        let s := { s with protector := fun c => if c = chat_id then check.1 else s.protector c }
        if ¬ check.2 then
          { s with operations_discarded := s.operations_discarded + 1 }
        else
          { s with
              db := delete_message s.db chat_id msg_id
              deletions_applied := s.deletions_applied + 1
              published := s.published ++ [(chat_id, msg_id)] }

/-- listener.py:618-682 `on_message_deleted`.  Event ids arrive already in
marked form (`_get_marked_id`, listener.py:368-378, is the identity on marked
integer ids).  With `LISTEN_DELETIONS` off the handler only counts the
skipped ids (listener.py:626-631); with a known, non-admitted event chat it
returns untouched (listener.py:636-640); otherwise it runs the per-id loop. -/
def on_message_deleted (env : ListenerEnv) (now : Int) (s : ListenerState)
    (event : DeletedEvent) : ListenerState :=
  if ¬ env.listen_deletions then
    { s with deletions_skipped := s.deletions_skipped + event.deleted_ids.length }
  else
    match event.chat_id with
    | some c =>
        if ¬ _should_process_chat env s c then s
        else event.deleted_ids.foldl (process_deleted_id env now (some c)) s
    | none => event.deleted_ids.foldl (process_deleted_id env now none) s

/-- C6: the deletion-without-chat fallback is broken.  The failing run:
`LISTEN_DELETIONS` on, chat 7 tracked, protector unblocked, the store holds
message 42 in chat 7, and a deletion event arrives with no chat id and
`deleted_ids = [42]`.  The adapter has no `get_chat_id_for_message` method,
so the handler's lookup raises and is swallowed, the chat is never resolved,
and the handler deletes nothing and publishes nothing — contrary to the
claim, under which the chat would be resolved from the store, the message
deleted and a delete event published. -/
theorem deletion_without_chat_fallback_dead :
    adapter_has_method "get_chat_id_for_message" = false ∧
    (∀ db msg_id, resolve_chat_id_from_db db msg_id = none) ∧
    (let db0 : Database :=
      ⟨[{ id := 7, type := "group" }],
       [⟨42, 7, none, some ⟨0, none⟩, some "hi", none, none, none, none, none,
          none, none, "\x7b\x7d", 0⟩],
       [], [], []⟩
     let s0 : ListenerState :=
      ⟨db0, fun _ => initProtector 10 30, [7], 0, 0, 0, 0, []⟩
     let env : ListenerEnv := ⟨true, [], [], [], []⟩
     let out := on_message_deleted env 0 s0 ⟨none, [42]⟩
     out.db = db0 ∧ out.published = [] ∧ out.deletions_applied = 0 ∧
       out.deletions_received = 1) := by
  refine ⟨rfl, fun db msg_id => rfl, ?_⟩
  constructor
  · rfl
  · exact ⟨rfl, rfl, rfl⟩

/- ### Backup media processing (telegram_backup.py:923-1065) -/

/-- The attributes of a message's media object that `_process_media` reads:
`media_type` is the `_get_media_type` result (telegram_backup.py:1085-1117,
`None` for unsupported media), `size` the `_get_media_size` reported size in
bytes (telegram_backup.py:1067-1083), `file_name` the `_get_media_filename`
result (telegram_backup.py:1119 ff., a pure naming function), and the rest
are metadata copied into the row (telegram_backup.py:1033, 1038-1050). -/
structure TgMedia where
  media_type : Option String
  size : Int
  file_name : String
  mime_type : Option String := none
  width : Option Int := none
  height : Option Int := none
  duration : Option Int := none

/-- The configuration `_process_media` consults: `media_path`
(config.py), `get_max_media_size_bytes()` (config.py:381-383) and
`deduplicate_media` (telegram_backup.py:976). -/
structure MediaConfig where
  media_path : String
  max_media_size_bytes : Int
  deduplicate_media : Bool

/-- The filesystem as `_process_media` observes it: which paths exist and
their on-disk sizes (`os.path.exists` / `os.path.getsize`). -/
structure MediaFs where
  existsPath : String → Bool
  sizeOf : String → Int

/-- The dict `_process_media` returns (telegram_backup.py:956-963,
1025-1050): the early size-guard return carries only id/type/keys/size with
`downloaded=False`; the full dict after a transfer carries the file fields. -/
structure MediaInfo where
  id : String
  type : String
  message_id : Int
  chat_id : Int
  file_name : Option String := none
  file_path : Option String := none
  file_size : Option Int := none
  mime_type : Option String := none
  width : Option Int := none
  height : Option Int := none
  duration : Option Int := none
  downloaded : Bool
  download_date : Option Int := none
  deriving DecidableEq

/-- adapter.py:547-580 `insert_media`: upsert on the media primary key `id`;
on conflict every written column is overwritten (`downloaded` is stored as
1/0 from the dict's boolean, adapter.py:562). -/
def mediaRowOf (m : MediaInfo) : MediaRow :=
  ⟨m.id, some m.message_id, some m.chat_id, some m.type, m.file_path,
    m.file_name, m.file_size, m.mime_type, m.width, m.height, m.duration,
    if m.downloaded then 1 else 0, m.download_date⟩

def insert_media (db : List MediaRow) (v : MediaRow) : List MediaRow :=
  if db.any (fun r => r.id == v.id) then
    db.map (fun r => if r.id == v.id then v else r)
  else db ++ [v]

/-- telegram_backup.py:923-1065 `_process_media`, as a transition on the
media table returning `(table, downloaded files, returned dict)`:

* no recognised media type → return `None` untouched (lines 937-938);
* reported size above `max_media_size_bytes` → return the partial dict with
  `downloaded=False` **without inserting any row and without downloading**
  (lines 954-963);
* otherwise transfer the file — into the `_shared` pool with a symbolic
  reference from the chat directory when deduplication is on (lines
  976-1013; the `OSError` symlink fallbacks are platform events and the
  success path is modelled), directly into the chat directory otherwise
  (lines 1014-1022) — refresh `file_size` from disk, build the full dict and
  persist it via `insert_media` (lines 1024-1055).  `download_size` is the
  on-disk size of a freshly transferred file and `now` the download clock
  reading. -/
def _process_media (cfg : MediaConfig) (fs : MediaFs) (db : List MediaRow)
    (chat_id message_id : Int) (media : TgMedia) (download_size now : Int) :
    List MediaRow × List String × Option MediaInfo :=
  match media.media_type with
  | none => (db, [], none)
  | some ty =>
      let media_id := toString chat_id ++ "_" ++ toString message_id ++ "_" ++ ty
      if cfg.max_media_size_bytes < media.size then
        (db, [],
          some { id := media_id, type := ty, message_id := message_id,
                 chat_id := chat_id, file_size := some media.size,
                 downloaded := false })
      else
        let chat_dir := cfg.media_path ++ "/" ++ toString chat_id
        let file_path := chat_dir ++ "/" ++ media.file_name
        let shared_path := cfg.media_path ++ "/_shared/" ++ media.file_name
        let transfers :=
          if cfg.deduplicate_media then
            if fs.existsPath file_path then []
            else if fs.existsPath shared_path then []
            else [shared_path]
          else
            if fs.existsPath file_path then [] else [file_path]
        let file_size :=
          if cfg.deduplicate_media then
            if fs.existsPath shared_path then fs.sizeOf shared_path
            else if fs.existsPath file_path then fs.sizeOf file_path
            else download_size
          else
            if fs.existsPath file_path then fs.sizeOf file_path
            else download_size
        let info : MediaInfo :=
          { id := media_id, type := ty, message_id := message_id,
            chat_id := chat_id, file_name := some media.file_name,
            file_path := some file_path, file_size := some file_size,
            mime_type := media.mime_type, width := media.width,
            height := media.height, duration := media.duration,
            downloaded := true, download_date := some now }
        (insert_media db (mediaRowOf info), transfers, some info)

/-- C8 counterexample: a 200 MiB photo against the default 100 MiB cap
(config.py:34, 381-383).  `_process_media` skips the transfer but also
inserts nothing: the media table stays empty, so no Media row with
`downloaded = 0` is recorded, contradicting the claim. -/
theorem oversized_media_no_row_counterexample :
    (_process_media ⟨"media", 100 * 1024 * 1024, true⟩
        ⟨fun _ => false, fun _ => 0⟩ [] 7 99
        { media_type := some "photo", size := 200 * 1024 * 1024, file_name := "f.jpg" } 0 0).1 = [] ∧
    (_process_media ⟨"media", 100 * 1024 * 1024, true⟩
        ⟨fun _ => false, fun _ => 0⟩ [] 7 99
        { media_type := some "photo", size := 200 * 1024 * 1024, file_name := "f.jpg" } 0 0).2.1 = [] := by
  exact ⟨rfl, rfl⟩

/-- C8 (amended): for every message whose media reports a size above
`max_media_size_mb`, `_process_media` downloads nothing and inserts no Media
row; it only returns the in-memory dict with `downloaded = False` (whose
id/type/path fields the caller copies into the message record,
telegram_backup.py:830-835). -/
theorem oversized_media_skipped (cfg : MediaConfig) (fs : MediaFs)
    (db : List MediaRow) (chat_id message_id : Int) (media : TgMedia)
    (download_size now : Int) (ty : String)
    (hty : media.media_type = some ty)
    (hsize : cfg.max_media_size_bytes < media.size) :
    _process_media cfg fs db chat_id message_id media download_size now =
      (db, [],
        some { id := toString chat_id ++ "_" ++ toString message_id ++ "_" ++ ty,
               type := ty, message_id := message_id, chat_id := chat_id,
               file_size := some media.size, downloaded := false }) := by
  simp [_process_media, hty, hsize]

/-- C8 witness: the counterexample input evaluated through the amended
theorem — table unchanged, no transfer, partial dict returned. -/
theorem oversized_media_skipped_witness :
    ({ media_type := some "photo", size := 200 * 1024 * 1024, file_name := "f.jpg" } : TgMedia).media_type = some "photo" ∧
    ((100 * 1024 * 1024 : Int) < ({ media_type := some "photo", size := 200 * 1024 * 1024, file_name := "f.jpg" } : TgMedia).size) ∧
    _process_media ⟨"media", 100 * 1024 * 1024, true⟩
        ⟨fun _ => false, fun _ => 0⟩ [⟨"7_1_photo", some 1, some 7, some "photo",
          none, none, none, none, none, none, none, 1, none⟩] 7 99
        { media_type := some "photo", size := 200 * 1024 * 1024, file_name := "f.jpg" } 0 0 =
      ([⟨"7_1_photo", some 1, some 7, some "photo", none, none, none, none, none,
          none, none, 1, none⟩], [],
        some { id := toString (7 : Int) ++ "_" ++ toString (99 : Int) ++ "_" ++ "photo",
               type := "photo", message_id := 99, chat_id := 7,
               file_size := some (200 * 1024 * 1024), downloaded := false }) :=
  ⟨rfl, by decide,
   oversized_media_skipped ⟨"media", 100 * 1024 * 1024, true⟩
     ⟨fun _ => false, fun _ => 0⟩ [⟨"7_1_photo", some 1, some 7, some "photo",
       none, none, none, none, none, none, none, 1, none⟩] 7 99
     { media_type := some "photo", size := 200 * 1024 * 1024, file_name := "f.jpg" } 0 0 "photo" rfl (by decide)⟩

/- ### Viewer avatar lookup (web/main.py:416-439) -/

/-- The glob pattern `{chat_id}_*.jpg` (web/main.py:430): a name matches iff
it is `{chat_id}_` followed by anything ending in `.jpg` (filenames contain
no path separator, so `*` is an arbitrary, possibly empty, run of
characters). -/
def avatar_glob_matches (chat_id : Int) (name : String) : Bool :=
  let pre := (toString chat_id ++ "_").data
  pre.isPrefixOf name.data && (".jpg").data.isSuffixOf (name.data.drop pre.length)

/-- The avatar directory as the lookup observes it: whether
`<media>/avatars/<folder>/` exists, its file names, and their mtimes. -/
structure AvatarDir where
  dirExists : Bool
  files : List String
  mtime : String → Int

/-- Python's `max(matches, key=mtime)` (web/main.py:435): the first maximal
element under strict comparison. -/
def max_by_mtime (mtime : String → Int) (first : String) (rest : List String) : String :=
  rest.foldl (fun best x => if mtime best < mtime x then x else best) first

/-- web/main.py:416-439 `_find_avatar_path`: private chats look in `users`,
others in `chats`; a missing directory yields `None`; otherwise the names
matching `{chat_id}_*.jpg` are globbed and the newest-mtime match is returned
as `avatars/<folder>/<file>`, else `None`. -/
def _find_avatar_path (chat_id : Int) (chat_type : String)
    (dirOf : String → AvatarDir) : Option String :=
  let avatar_folder := if chat_type == "private" then "users" else "chats"
  let d := dirOf avatar_folder
  if ¬ d.dirExists then none
  else
    match d.files.filter (avatar_glob_matches chat_id) with
    | [] => none
    | f :: fs => some ("avatars/" ++ avatar_folder ++ "/" ++ max_by_mtime d.mtime f fs)

/-- C9: legacy avatars are not resolved.  The failing run: the `users` avatar
directory contains exactly the legacy file `123456.jpg` (no photo-id suffix)
for private chat 123456.  The glob `123456_*.jpg` cannot match it (the legacy
name has no underscore), so the lookup returns `None` — while the claim (and
the repo's own test, tests/test_database_viewer.py:91-93) expects
`avatars/users/123456.jpg`.  A new-format sibling `123456_999.jpg` would
match. -/
theorem find_avatar_path_misses_legacy :
    avatar_glob_matches 123456 "123456_999.jpg" = true ∧
    avatar_glob_matches 123456 "123456.jpg" = false ∧
    _find_avatar_path 123456 "private"
        (fun _ => ⟨true, ["123456.jpg"], fun _ => 100⟩) = none ∧
    _find_avatar_path 123456 "private"
        (fun _ => ⟨true, ["123456.jpg", "123456_999.jpg"], fun _ => 100⟩) =
      some "avatars/users/123456_999.jpg" := by
  refine ⟨by decide, by decide, by decide, by decide⟩

/- ### Viewer message pagination (adapter.py:806-889, web/main.py:517-562) -/

/-- SQL `text ILIKE '%q%'` (adapter.py:842): case-insensitive substring
match; a NULL text never matches. -/
def char_list_has_sub (needle hay : List Char) : Bool :=
  hay.tails.any (fun t => needle.isPrefixOf t)

def ilike_contains (text : Option String) (q : String) : Bool :=
  match text with
  | none => false
  | some t => char_list_has_sub q.toLower.data t.toLower.data

/-- The `ORDER BY date DESC` key (adapter.py:844); `date` is a NOT NULL
column (models.py:52), read at face (naive wall-clock) value. -/
def dateKey (m : MessageValues) : Int :=
  (m.date.map PyDateTime.wall).getD 0

/-- adapter.py:806-889 `get_messages_paginated` — note the signature
(adapter.py:806-812): `chat_id`, `limit`, `offset`, `search` and **no cursor
parameters**.  Row selection: the chat's rows, optionally search-filtered,
ordered by date descending, offset then limit applied (adapter.py:827-844).
The user/media joins and the reply-text/reaction enrichment
(adapter.py:828-837, 866-888) decorate each returned row with display
columns without changing which message rows are returned, and are omitted
here. -/
def get_messages_paginated (messages : List MessageValues) (chat_id : Int)
    (limit offset : Nat) (search : Option String) : List MessageValues :=
  let rows := messages.filter (fun m => m.chat_id == chat_id)
  let rows :=
    match search with
    | none => rows
    | some q => rows.filter (fun m => ilike_contains m.text q)
  ((rows.insertionSort (fun a b => dateKey b ≤ dateKey a)).drop offset).take limit

/-- The parameter names accepted by the adapter's `get_messages_paginated`
(adapter.py:806-812). -/
def get_messages_paginated_params : List String :=
  ["chat_id", "limit", "offset", "search"]

/-- The keyword arguments the endpoint always passes (web/main.py:551-558):
`before_date` and `before_id` are supplied unconditionally. -/
def get_messages_call_kwargs : List String :=
  ["chat_id", "limit", "offset", "search", "before_date", "before_id"]

/-- Python call semantics: a keyword argument whose name is not a parameter
of the callee raises `TypeError`. -/
def kwargs_accepted (params kwargs : List String) : Bool :=
  kwargs.all (fun k => params.contains k)

/-- The shape of ISO-8601 strings `YYYY-MM-DDTHH:MM:SS` accepted by
`datetime.fromisoformat` as exercised by the endpoint (web/main.py:541-548);
only the subset without fraction/offset is modelled — the parsed value is
never consumed, because the adapter call below raises first. -/
def is_iso_datetime (s : String) : Bool :=
  match s.data with
  | [y1, y2, y3, y4, c1, o1, o2, c2, d1, d2, c3, h1, h2, c4, i1, i2, c5, e1, e2] =>
      y1.isDigit && y2.isDigit && y3.isDigit && y4.isDigit && c1 == '-' &&
      o1.isDigit && o2.isDigit && c2 == '-' && d1.isDigit && d2.isDigit &&
      (c3 == 'T' || c3 == ' ') && h1.isDigit && h2.isDigit && c4 == ':' &&
      i1.isDigit && i2.isDigit && c5 == ':' && e1.isDigit && e2.isDigit
  | _ => false

/-- web/main.py:517-562 `GET /api/chats/{chat_id}/messages`: 403 when a
`display_chat_ids` whitelist exists and misses the chat (lines 536-537); 400
on an unparsable `before_date` (lines 540-548); then the adapter call with
the six keyword arguments of lines 551-558 — the adapter's signature accepts
only four of them, so the call raises `TypeError`, the catch-all turns it
into a 500 (lines 560-562), and `get_messages_paginated` is never reached. -/
def get_messages_endpoint (display_chat_ids : List Int) (db : Database)
    (chat_id : Int) (limit offset : Nat) (search : Option String)
    (before_date : Option String) (before_id : Option Int) :
    Except Nat (List MessageValues) :=
  if !display_chat_ids.isEmpty && !display_chat_ids.contains chat_id then
    .error 403
  else if (match before_date with
           | some sd => !is_iso_datetime sd
           | none => false) then
    .error 400
  else if kwargs_accepted get_messages_paginated_params get_messages_call_kwargs then
    .ok (get_messages_paginated db.messages chat_id limit offset search)
  else
    .error 500

/-- Modelled from the spec: the cursor variant of `get_messages_paginated`
(§4.A: with both `before_date` and `before_id` supplied, return the chat's
rows with `(date, id)` strictly below the supplied tuple, ordered by that
tuple descending) — this operation is absent from the src adapter, whose
`get_messages_paginated` takes no cursor parameters. -/
def get_messages_cursor_spec (messages : List MessageValues) (chat_id : Int)
    (limit : Nat) (before_wall before_id : Int) : List MessageValues :=
  let rows := messages.filter (fun m =>
    m.chat_id == chat_id &&
      (dateKey m < before_wall || (dateKey m == before_wall && m.id < before_id)))
  (rows.insertionSort (fun a b =>
    dateKey b < dateKey a ∨ (dateKey b = dateKey a ∧ b.id ≤ a.id))).take limit

/-- C6-demo store for the cursor request: chat 7 holds message 42 strictly
below the cursor `(720, 12345)` and message 50 above it. -/
def cursorDemoDb : Database :=
  ⟨[{ id := 7, type := "group" }],
   [⟨42, 7, none, some ⟨700, none⟩, some "old", none, none, none, none, none,
      none, none, "\x7b\x7d", 0⟩,
    ⟨50, 7, none, some ⟨800, none⟩, some "new", none, none, none, none, none,
      none, none, "\x7b\x7d", 0⟩],
   [], [], []⟩

/-- C3: cursor pagination is broken.  The failing request:
`GET /api/chats/7/messages?before_date=2026-01-15T12:00:00&before_id=12345`
(no whitelist, default limit/offset, no search).  The endpoint parses the
date, then calls the adapter with `before_date`/`before_id` keyword
arguments the adapter's `get_messages_paginated` does not accept; the
`TypeError` is caught and the endpoint returns 500 — whereas under the claim
it would return the one message below the cursor (the spec-modelled cursor
read returns message 42). -/
theorem cursor_pagination_typeerror :
    kwargs_accepted get_messages_paginated_params get_messages_call_kwargs = false ∧
    get_messages_endpoint [] cursorDemoDb 7 50 0 none
        (some "2026-01-15T12:00:00") (some 12345) = .error 500 ∧
    get_messages_cursor_spec cursorDemoDb.messages 7 50 720 12345 =
      [⟨42, 7, none, some ⟨700, none⟩, some "old", none, none, none, none, none,
         none, none, "\x7b\x7d", 0⟩] := by
  have hkw : kwargs_accepted get_messages_paginated_params get_messages_call_kwargs = false := by
    decide
  refine ⟨hkw, ?_, by decide⟩
  have hiso : is_iso_datetime "2026-01-15T12:00:00" = true := by decide
  simp [get_messages_endpoint, hiso, hkw]

end TelegramArchive
